import Mathlib

/-
Verification development for the AML bot core (src/bot.py).

Shallow embedding choices:
- python strings are Lean Strings, manipulated through their character lists;
- python dicts (the blacklist, the filesystem) are association lists
  List (String × _) with dict-style get / set / pop operations;
- the persisted blacklist.json file is a value of an explicit outcome type
  (readable, missing, unreadable, malformed), since json.load is external;
- the Etherscan provider responses consumed by generate_aml_report are
  explicit values: either a parsed JSON payload or an exception outcome
  (network error / resp.json() raising), matching how the code consumes them;
- the telegram ConversationHandler states ENTER_PHRASE .. CONFIRM_REMOVE and
  the handler functions of bot.py become a state enum plus one transition
  function per handler, composed into a single session step function.
-/

namespace AmlBot

/-- python str.startswith on the character sequence. -/
def pyStartswith (s p : String) : Bool :=
  p.data.isPrefixOf s.data

/-- python len() of a string: the number of characters. -/
def pyLen (s : String) : Nat :=
  s.data.length

/-- python str.lower(); ASCII folding, which is what the bot needs for hex
addresses. -/
def pyLower (s : String) : String :=
  ⟨s.data.map Char.toLower⟩

/-- The whitespace characters removed by python str.strip(). -/
def pyWS (c : Char) : Bool :=
  c = ' ' || c = '\t' || c = '\n' || c = '\r' || c = '\x0b' || c = '\x0c'

/-- python str.strip(): drop leading and trailing whitespace. -/
def pyStrip (s : String) : String :=
  ⟨((s.data.dropWhile pyWS).reverse.dropWhile pyWS).reverse⟩

section Assoc

variable {α : Type}

/-- python `d.get(k)` / `d[k]` on a dict modelled as an association list. -/
def getAssoc (l : List (String × α)) (k : String) : Option α :=
  (l.find? (fun p => p.1 = k)).map Prod.snd

/-- python `d[k] = v`: replace the value if the key is present, else append. -/
def setAssoc (l : List (String × α)) (k : String) (v : α) : List (String × α) :=
  if (l.find? (fun p => p.1 = k)).isSome then
    l.map (fun p => if p.1 = k then (k, v) else p)
  else
    l ++ [(k, v)]

/-- python `d.pop(k)` (the removal part): drop the entry with the key. -/
def delAssoc (l : List (String × α)) (k : String) : List (String × α) :=
  l.filter (fun p => p.1 ≠ k)

/-- Number of entries stored under a key. A python dict always has at most
one; the association-list model makes that an invariant to prove. -/
def keyCount (l : List (String × α)) (k : String) : Nat :=
  (l.map Prod.fst).count k

end Assoc

/-- One persisted blocklist record, the dict written by save_to_blacklist
(bot.py lines 263-269). Fields are optional because JSON entries are dicts
read back with .get defaults. -/
structure Entry where
  reason : Option String
  source : Option String
  added_by : Option Nat
  username : Option String
  date : Option String
deriving DecidableEq

/-- The blacklist store: canonical (lower-case) address to entry. -/
abbrev Blacklist := List (String × Entry)

/-- Outcome of reading blacklist.json: the file may be missing, readable with
a deserializable store, unreadable (OSError), or malformed (JSONDecodeError).
json.load itself is external, so its success or failure is an input. -/
inductive ReadOutcome where
  | missing
  | ok (bl : Blacklist)
  | ioError
  | malformed
deriving DecidableEq

/-- load_blacklist (bot.py lines 35-47): a missing file is created empty and
an empty dict returned; any exception (unreadable file, malformed JSON) is
caught and an empty dict returned. -/
def load_blacklist : ReadOutcome → Blacklist
  | .missing => []
  | .ok bl => bl
  | .ioError => []
  | .malformed => []

/-- BLACKLIST_FILE constant (bot.py line 26). -/
def BLACKLIST_FILE : String := "blacklist.json"

/-- Filesystem operations visible in save_blacklist, for the durability
analysis: open(path, 'w') truncates, json.dump writes content, and
os.rename (not used by the code) would move a file. -/
inductive FileOp where
  | openTrunc (path : String)
  | writeAll (path : String) (content : String)
  | rename (src : String) (dst : String)
deriving DecidableEq

/-- I/O trace of save_blacklist (bot.py lines 49-57): open(BLACKLIST_FILE,'w')
truncates the store file in place, then json.dump writes the serialized
store. Modelling the dump as one whole-content write is generous to the code
(the real json.dump streams many small writes); even so the trace rewrites
the live file directly and contains no temp-file rename. -/
def save_blacklist_ops (serialized : String) : List FileOp :=
  [FileOp.openTrunc BLACKLIST_FILE, FileOp.writeAll BLACKLIST_FILE serialized]

/-- Filesystem state: path to file content. -/
abbrev FS := List (String × String)

/-- Effect of one file operation on the filesystem. -/
def applyOp (fs : FS) : FileOp → FS
  | .openTrunc p => setAssoc fs p ""
  | .writeAll p c => setAssoc fs p c
  | .rename src dst =>
    match getAssoc fs src with
    | some c => setAssoc (delAssoc fs src) dst c
    | none => fs

/-- Run a trace of file operations. -/
def runOps (fs : FS) (ops : List FileOp) : FS :=
  ops.foldl applyOp fs

/-- The crash-atomicity property the spec claims for the persistence path:
at every crash point (after any prefix of the trace) the store file holds
either the complete old serialization or the complete new one, never a
half-written state. -/
def CrashAtomic (ops : List FileOp) (path oldC newC : String) : Prop :=
  ∀ pre : List FileOp, pre <+: ops →
    getAssoc (runOps [(path, oldC)] pre) path = some oldC ∨
    getAssoc (runOps [(path, oldC)] pre) path = some newC

/-- JSON payload shape consumed by the balance branch (bot.py lines 90-93):
only the status flag and the result field are read. The mock's message field
is never read by the code, so it is not modelled. -/
structure BalanceJson where
  status : Option String
  result : Option String
deriving DecidableEq

/-- JSON payload shape consumed by the transaction branch (lines 96-99):
the result field is a list (only its length is used), defaulted to []. -/
structure TxJson where
  result : Option (List Unit)
deriving DecidableEq

/-- JSON payload shape consumed by the contract branch (lines 102-105). -/
structure ContractJson where
  status : Option String
  result : Option String
deriving DecidableEq

/-- One provider call as the code observes it: a parsed JSON payload, or an
exception raised before a payload exists (transport error, non-JSON body). -/
inductive Fetched (α : Type) where
  | ok (json : α)
  | raise
deriving DecidableEq

/-- The three Etherscan responses consumed by one generate_aml_report call. -/
structure ProviderResponses where
  balance : Fetched BalanceJson
  tx : Fetched TxJson
  contract : Fetched ContractJson
deriving DecidableEq

instance {ε α : Type} [DecidableEq ε] [DecidableEq α] : DecidableEq (Except ε α) := fun
  | .ok a, .ok b =>
    if h : a = b then .isTrue (by rw [h]) else .isFalse (by intro he; cases he; exact h rfl)
  | .ok _, .error _ => .isFalse (by intro h; cases h)
  | .error _, .ok _ => .isFalse (by intro h; cases h)
  | .error a, .error b =>
    if h : a = b then .isTrue (by rw [h]) else .isFalse (by intro he; cases he; exact h rfl)

/-- Digit run to a number; none models python int() raising ValueError. -/
def digitsToNat? (ds : List Char) : Option Nat :=
  ds.foldl
    (fun acc c =>
      match acc with
      | none => none
      | some a => if c.isDigit then some (a * 10 + (c.toNat - '0'.toNat)) else none)
    (if ds.isEmpty then none else some 0)

/-- python int(s) on a decimal string: optional sign, at least one digit,
surrounding whitespace ignored; none models a ValueError. -/
def pyInt? (s : String) : Option Int :=
  match (pyStrip s).data with
  | '-' :: ds => (digitsToNat? ds).map (fun n => -(n : Int))
  | '+' :: ds => (digitsToNat? ds).map (fun n => (n : Int))
  | ds => (digitsToNat? ds).map (fun n => (n : Int))

/-- Balance branch of generate_aml_report (line 93):
`balance = int(data['result']) / 10**18 if data.get('status') == '1' else 0`.
The value kept here is the raw wei integer; the report divides it by 10^18
for display only. An error is an exception escaping to the outer handler:
resp.json() raising, the result key missing, or int() failing. A provider
status other than '1' yields the value 0, not an error. -/
def balanceStep : Fetched BalanceJson → Except Unit Int
  | .raise => .error ()
  | .ok j =>
    if j.status = some "1" then
      match j.result with
      | none => .error ()
      | some r =>
        match pyInt? r with
        | none => .error ()
        | some n => .ok n
    else .ok 0

/-- Transaction branch (line 99): `tx_count = len(tx_data.get('result', []))`. -/
def txStep : Fetched TxJson → Except Unit Nat
  | .raise => .error ()
  | .ok j => .ok (j.result.getD []).length

/-- Contract branch (line 105): status must be '1' and the result must differ
from the provider's not-verified sentinel; reading result with status '1'
and no result key raises. -/
def contractStep : Fetched ContractJson → Except Unit Bool
  | .raise => .error ()
  | .ok j =>
    if j.status = some "1" then
      match j.result with
      | none => .error ()
      | some r => .ok (r ≠ "Contract source code not verified")
    else .ok false

/-- The per-source values a successful Etherscan section carries: exactly one
value per configured source (balance, transaction count, contract type). -/
structure ChainSection where
  balance_wei : Int
  tx_count : Nat
  is_contract : Bool
deriving DecidableEq

/-- Sequential execution of the three provider branches inside the single
try of generate_aml_report: the first exception aborts the rest. -/
def chainSection (r : ProviderResponses) : Except Unit ChainSection :=
  match balanceStep r.balance with
  | .error e => .error e
  | .ok b =>
    match txStep r.tx with
    | .error e => .error e
    | .ok t =>
      match contractStep r.contract with
      | .error e => .error e
      | .ok c => .ok ⟨b, t, c⟩

/-- Structured content of the string generate_aml_report returns: either a
report (blacklist-section entry if the canonical address is stored, plus the
Etherscan section when an API key is configured), or the generic error text
produced by the outer except handler (lines 137-139), which carries no
per-source data at all. -/
inductive ReportResult where
  | report (entry : Option Entry) (chain : Option ChainSection)
  | errorReport
deriving DecidableEq

/-- generate_aml_report (bot.py lines 59-139). The address is lower-cased for
the blacklist lookup; with an API key the three provider branches run inside
one try, and any exception replaces the whole report by the generic error
text; without an API key the Etherscan section is skipped. The function
always returns a value: it has no failure outcome of its own. -/
def generate_aml_report (bl : Blacklist) (hasApiKey : Bool)
    (resp : ProviderResponses) (address : String) : ReportResult :=
  let address_lower := pyLower address
  let entry := getAssoc bl address_lower
  if hasApiKey then
    match chainSection resp with
    | .ok s => .report entry (some s)
    | .error _ => .errorReport
  else
    .report entry none

/-- The ConversationHandler states (bot.py line 19) plus the terminal
ConversationHandler.END. -/
inductive ConvState where
  | ENTER_PHRASE
  | CHOOSE_ACTION
  | ENTER_ADDRESS
  | ENTER_REASON
  | CONFIRM_REMOVE
  | END
deriving DecidableEq

/-- The address-format test applied verbatim at both code sites:
check_address line 233 and handle_address line 311:
`address.startswith('0x') and len(address) == 42`. No other check is made. -/
def addr_format_ok (s : String) : Bool :=
  pyStartswith s "0x" && pyLen s == 42

/-- check_phrase (bot.py lines 173-196): the message text is stripped and
compared to SECRET_PHRASE with string equality; a mismatch ends the
conversation at once, a match stores the phrase in user_data and moves to
the action choice. Returns the next state and the phrase stored (if any). -/
def check_phrase (secret input : String) : ConvState × Option String :=
  let user_phrase := pyStrip input
  if user_phrase ≠ secret then (.END, none)
  else (.CHOOSE_ACTION, some user_phrase)

/-- handle_action_choice (lines 198-226): cancel ends; add asks for an
address; remove ends at once when the blacklist is empty, else asks which
address to remove. Any other callback value returns python None, which
leaves the ConversationHandler in the same state. -/
def handle_action_choice (bl : Blacklist) (action : String) : ConvState :=
  if action = "cancel" then .END
  else if action = "add" then .ENTER_ADDRESS
  else if action = "remove" then
    if bl = [] then .END else .CONFIRM_REMOVE
  else .CHOOSE_ACTION

/-- check_address (lines 228-254): strip the input; a format failure
re-prompts (stays in ENTER_ADDRESS); if the lower-cased address is already
stored the conversation ends reporting the existing reason (the stored
entry is left untouched); otherwise the canonical address is saved in
user_data and the reason is requested. Returns (next state, address saved
to user_data, existing reason reported). -/
def check_address (bl : Blacklist) (input : String) :
    ConvState × Option String × Option String :=
  let address := pyStrip input
  if !(addr_format_ok address) then (.ENTER_ADDRESS, none, none)
  else
    let address_lower := pyLower address
    match getAssoc bl address_lower with
    | some entry => (.END, none, some (entry.reason.getD "причина не указана"))
    | none => (.ENTER_REASON, some address_lower, none)

/-- save_to_blacklist (lines 256-281): the message text is the reason; the
entry is written under the canonical address saved in user_data with the
constant source "Ручное добавление", the caller identity and a timestamp,
then the whole store is persisted. The conversation ends. -/
def save_to_blacklist (bl : Blacklist) (input : String) (address : String)
    (userId : Nat) (username : Option String) (now : String) :
    ConvState × Blacklist :=
  let reason := pyStrip input
  let entry : Entry :=
    { reason := some reason
      source := some "Ручное добавление"
      added_by := some userId
      username := username
      date := some now }
  (.END, setAssoc bl address entry)

/-- remove_from_blacklist (lines 283-304): the input is stripped and
lower-cased; an absent address ends with a not-found report; a present one
is popped (the popped entry is reported back) and the store persisted.
Returns (next state, new store, popped entry). -/
def remove_from_blacklist (bl : Blacklist) (input : String) :
    ConvState × Blacklist × Option Entry :=
  let address := pyLower (pyStrip input)
  match getAssoc bl address with
  | none => (.END, bl, none)
  | some e => (.END, delAssoc bl address, some e)

/-- The per-session user_data fields the conversation uses. -/
structure SessData where
  phrase : Option String
  address : Option String
deriving DecidableEq

/-- One step of the blacklist-management conversation: dispatch the input to
the handler registered for the current state (bot.py lines 349-359),
threading user_data and the persisted store. A reason input with no address
in user_data would raise a KeyError inside the handler, which the telegram
framework swallows leaving the state unchanged. END is terminal. -/
def conv_step (secret : String) (userId : Nat) (username : Option String)
    (now : String) (st : ConvState) (d : SessData) (bl : Blacklist)
    (input : String) : ConvState × SessData × Blacklist :=
  match st with
  | .ENTER_PHRASE =>
    let r := check_phrase secret input
    (r.1, { d with phrase := match r.2 with | some p => some p | none => d.phrase }, bl)
  | .CHOOSE_ACTION => (handle_action_choice bl input, d, bl)
  | .ENTER_ADDRESS =>
    let r := check_address bl input
    (r.1, { d with address := match r.2.1 with | some a => some a | none => d.address }, bl)
  | .ENTER_REASON =>
    match d.address with
    | some a =>
      let r := save_to_blacklist bl input a userId username now
      (r.1, d, r.2)
    | none => (.ENTER_REASON, d, bl)
  | .CONFIRM_REMOVE =>
    let r := remove_from_blacklist bl input
    (r.1, d, r.2.1)
  | .END => (.END, d, bl)

/-- Run a whole session: feed the inputs one by one through conv_step. -/
def run_session (secret : String) (userId : Nat) (username : Option String)
    (now : String) (inputs : List String) (st : ConvState) (d : SessData)
    (bl : Blacklist) : ConvState × SessData × Blacklist :=
  match inputs with
  | [] => (st, d, bl)
  | i :: rest =>
    let r := conv_step secret userId username now st d bl i
    run_session secret userId username now rest r.1 r.2.1 r.2.2

/-- Stages of one add operation for an already-validated canonical address:
the membership check of check_address (lines 237-247) and the blind
insert-and-save of save_to_blacklist (lines 258-271), each acting on the
store as freshly loaded from disk at that moment. There is no lock anywhere
in the code. -/
inductive AddStage where
  | toCheck
  | toCommit
  | doneOk
  | doneAlready
deriving DecidableEq

/-- Two concurrent add operations for the same canonical address sharing the
persisted store. -/
structure TwoAdds where
  file : Blacklist
  s1 : AddStage
  s2 : AddStage
deriving DecidableEq

/-- One atomic step of one add operation: the check loads the store and
tests membership (AlreadyPresent ends the flow); the commit loads the
store, inserts the entry and saves. Completed stages do not move. -/
def addStep (k : String) (e : Entry) : AddStage → Blacklist → AddStage × Blacklist
  | .toCheck, bl => if (getAssoc bl k).isSome then (.doneAlready, bl) else (.toCommit, bl)
  | .toCommit, bl => (.doneOk, setAssoc bl k e)
  | .doneOk, bl => (.doneOk, bl)
  | .doneAlready, bl => (.doneAlready, bl)

/-- Interleaving step: true schedules caller 1, false schedules caller 2. -/
def schedStep (k : String) (e1 e2 : Entry) (sys : TwoAdds) (who : Bool) : TwoAdds :=
  if who then
    let r := addStep k e1 sys.s1 sys.file
    ⟨r.2, r.1, sys.s2⟩
  else
    let r := addStep k e2 sys.s2 sys.file
    ⟨r.2, sys.s1, r.1⟩

/-- Run an interleaving schedule of the two add operations. -/
def runSched (k : String) (e1 e2 : Entry) (sched : List Bool) (sys : TwoAdds) : TwoAdds :=
  sched.foldl (schedStep k e1 e2) sys

/-- A completed add call: it reached one of its two outcomes. -/
def AddStage.finished : AddStage → Prop
  | .doneOk => True
  | .doneAlready => True
  | _ => False

/-- Hex digit, case-insensitive. -/
def isHexChar (c : Char) : Bool :=
  ('0' ≤ c && c ≤ '9') || ('a' ≤ c && c ≤ 'f') || ('A' ≤ c && c ≤ 'F')

/-- The validator as the spec states it, for comparison with the code's
addr_format_ok: exact prefix 0x, total length 42, and every character after
the prefix a hexadecimal digit (case-insensitive). -/
def validate_spec (s : String) : Bool :=
  pyStartswith s "0x" && pyLen s == 42 && (s.data.drop 2).all isHexChar

section AssocLemmas

variable {α : Type}

theorem find?_key_isSome_iff {l : List (String × α)} {k : String} :
    ((l.find? (fun p => p.1 = k)).isSome = true) ↔ k ∈ l.map Prod.fst := by
  simp [List.find?_isSome, List.mem_map]

theorem getAssoc_eq_none_iff {l : List (String × α)} {k : String} :
    getAssoc l k = none ↔ k ∉ l.map Prod.fst := by
  unfold getAssoc
  rw [Option.map_eq_none', ← Option.not_isSome_iff_eq_none]
  exact not_congr find?_key_isSome_iff

theorem map_fst_setKeep {l : List (String × α)} {k : String} {v : α} :
    (l.map (fun p => if p.1 = k then (k, v) else p)).map Prod.fst = l.map Prod.fst := by
  rw [List.map_map]
  apply List.map_congr_left
  intro p _
  by_cases h : p.1 = k
  · simp [h]
  · simp [h]

theorem find?_setKeep {l : List (String × α)} {k : String} {v : α} :
    (l.map (fun p => if p.1 = k then (k, v) else p)).find? (fun p => p.1 = k) =
      if (l.find? (fun p => p.1 = k)).isSome then some (k, v) else none := by
  induction l with
  | nil => simp
  | cons p tl ih =>
    rw [List.map_cons]
    by_cases h : p.1 = k
    · rw [if_pos h]
      rw [List.find?_cons_of_pos _ (by simp), List.find?_cons_of_pos _ (by simp [h])]
      simp
    · rw [if_neg h]
      rw [List.find?_cons_of_neg _ (by simp [h]), List.find?_cons_of_neg _ (by simp [h])]
      exact ih

theorem find?_append_of_none {l l' : List (String × α)} {f : String × α → Bool}
    (h : l.find? f = none) : (l ++ l').find? f = l'.find? f := by
  induction l with
  | nil => simp
  | cons p tl ih =>
    rw [List.cons_append, List.find?]
    rw [List.find?] at h
    cases hf : f p with
    | true => rw [hf] at h; simp at h
    | false => rw [hf] at h; exact ih h

theorem getAssoc_setAssoc_self {l : List (String × α)} {k : String} {v : α} :
    getAssoc (setAssoc l k v) k = some v := by
  unfold getAssoc setAssoc
  split
  · next h => rw [find?_setKeep, if_pos h]; rfl
  · next h =>
    rw [find?_append_of_none (Option.not_isSome_iff_eq_none.mp h)]
    simp [List.find?]

theorem getAssoc_delAssoc_self {l : List (String × α)} {k : String} :
    getAssoc (delAssoc l k) k = none := by
  unfold getAssoc delAssoc
  rw [Option.map_eq_none']
  rw [List.find?_eq_none]
  intro p hp
  have := (List.mem_filter.mp hp).2
  simpa using this

theorem keyCount_eq_zero_iff {l : List (String × α)} {k : String} :
    keyCount l k = 0 ↔ k ∉ l.map Prod.fst := by
  simp [keyCount, List.count_eq_zero]

theorem keyCount_setAssoc_self {l : List (String × α)} {k : String} {v : α} :
    keyCount (setAssoc l k v) k =
      if k ∈ l.map Prod.fst then keyCount l k else keyCount l k + 1 := by
  unfold setAssoc
  by_cases h : k ∈ l.map Prod.fst
  · rw [if_pos (find?_key_isSome_iff.mpr h), if_pos h]
    unfold keyCount
    rw [map_fst_setKeep]
  · rw [if_neg (by rw [find?_key_isSome_iff]; exact h), if_neg h]
    unfold keyCount
    simp

theorem nodup_setAssoc {l : List (String × α)} {k : String} {v : α}
    (h : (l.map Prod.fst).Nodup) : ((setAssoc l k v).map Prod.fst).Nodup := by
  unfold setAssoc
  by_cases hm : k ∈ l.map Prod.fst
  · rw [if_pos (find?_key_isSome_iff.mpr hm), map_fst_setKeep]
    exact h
  · rw [if_neg (by rw [find?_key_isSome_iff]; exact hm)]
    simp [List.nodup_append, h, hm]

theorem nodup_keyCount_le_one {l : List (String × α)} {k : String}
    (h : (l.map Prod.fst).Nodup) : keyCount l k ≤ 1 :=
  List.nodup_iff_count_le_one.mp h k

theorem keyCount_pos_of_isSome {l : List (String × α)} {k : String}
    (h : (getAssoc l k).isSome = true) : 1 ≤ keyCount l k := by
  have hm : k ∈ l.map Prod.fst := by
    apply find?_key_isSome_iff.mp
    unfold getAssoc at h
    simpa using h
  exact List.count_pos_iff.mpr hm

end AssocLemmas


/-- Invariant of the two-adds interleaving for an initial store without the
key: keys stay duplicate-free, the key is stored exactly when some caller
has committed, and a caller can only have observed AlreadyPresent after the
other caller committed. -/
def addsInv (k : String) (sys : TwoAdds) : Prop :=
  (sys.file.map Prod.fst).Nodup ∧
  keyCount sys.file k = (if sys.s1 = .doneOk ∨ sys.s2 = .doneOk then 1 else 0) ∧
  (sys.s1 = .doneAlready → sys.s2 = .doneOk) ∧
  (sys.s2 = .doneAlready → sys.s1 = .doneOk)

theorem keyCount_eq_zero_of_not_isSome {l : Blacklist} {k : String}
    (h : ¬(getAssoc l k).isSome = true) : keyCount l k = 0 := by
  apply keyCount_eq_zero_iff.mpr
  intro hm
  apply h
  unfold getAssoc
  simp [find?_key_isSome_iff.mpr hm]

theorem keyCount_setAssoc_one {l : Blacklist} {k : String} {v : Entry}
    (hle : keyCount l k ≤ 1) :
    keyCount (setAssoc l k v) k = 1 := by
  rw [keyCount_setAssoc_self]
  by_cases hm : k ∈ l.map Prod.fst
  · rw [if_pos hm]
    have h1 : 1 ≤ keyCount l k := List.count_pos_iff.mpr hm
    omega
  · rw [if_neg hm]
    have h0 : keyCount l k = 0 := keyCount_eq_zero_iff.mpr hm
    omega

theorem addsInv_schedStep {k : String} {e1 e2 : Entry} {sys : TwoAdds} (who : Bool)
    (h : addsInv k sys) : addsInv k (schedStep k e1 e2 sys who) := by
  obtain ⟨file, s1, s2⟩ := sys
  obtain ⟨hnd, hcount, h12, h21⟩ := h
  simp only [addsInv] at hcount h12 h21
  cases who
  case true =>
    cases s1 with
    | toCheck =>
      by_cases hk : (getAssoc file k).isSome = true
      · have hone : 1 ≤ keyCount file k := keyCount_pos_of_isSome hk
        have hs2 : s2 = AddStage.doneOk := by
          by_contra hne
          rw [if_neg (by simp [hne])] at hcount
          omega
        have hc1 : keyCount file k = 1 := by
          rw [hcount, if_pos (Or.inr hs2)]
        have hstep : schedStep k e1 e2 ⟨file, AddStage.toCheck, s2⟩ true =
            ⟨file, AddStage.doneAlready, s2⟩ := by
          simp [schedStep, addStep, hk]
        rw [hstep]
        refine ⟨hnd, by simp [hs2, hc1], fun _ => hs2, ?_⟩
        intro hc
        rw [hs2] at hc
        exact AddStage.noConfusion hc
      · have hzero : keyCount file k = 0 := keyCount_eq_zero_of_not_isSome hk
        have hs2 : ¬s2 = AddStage.doneOk := by
          intro hne
          rw [if_pos (by simp [hne])] at hcount
          omega
        have hs2' : ¬s2 = AddStage.doneAlready := fun hc => AddStage.noConfusion (h21 hc)
        have hstep : schedStep k e1 e2 ⟨file, AddStage.toCheck, s2⟩ true =
            ⟨file, AddStage.toCommit, s2⟩ := by
          simp [schedStep, addStep, hk]
        rw [hstep]
        refine ⟨hnd, ?_, fun hc => AddStage.noConfusion hc, fun hc => absurd hc hs2'⟩
        rw [if_neg (by simp [hs2])]
        exact hzero
    | toCommit =>
      have hle : keyCount file k ≤ 1 := nodup_keyCount_le_one hnd
      have hstep : schedStep k e1 e2 ⟨file, AddStage.toCommit, s2⟩ true =
          ⟨setAssoc file k e1, AddStage.doneOk, s2⟩ := by
        simp [schedStep, addStep]
      rw [hstep]
      refine ⟨nodup_setAssoc hnd, ?_, fun hc => AddStage.noConfusion hc, fun _ => rfl⟩
      rw [keyCount_setAssoc_one hle, if_pos (Or.inl rfl)]
    | doneOk =>
      have hstep : schedStep k e1 e2 ⟨file, AddStage.doneOk, s2⟩ true =
          ⟨file, AddStage.doneOk, s2⟩ := by
        simp [schedStep, addStep]
      rw [hstep]
      exact ⟨hnd, hcount, h12, h21⟩
    | doneAlready =>
      have hstep : schedStep k e1 e2 ⟨file, AddStage.doneAlready, s2⟩ true =
          ⟨file, AddStage.doneAlready, s2⟩ := by
        simp [schedStep, addStep]
      rw [hstep]
      exact ⟨hnd, hcount, h12, h21⟩
  case false =>
    cases s2 with
    | toCheck =>
      by_cases hk : (getAssoc file k).isSome = true
      · have hone : 1 ≤ keyCount file k := keyCount_pos_of_isSome hk
        have hs1 : s1 = AddStage.doneOk := by
          by_contra hne
          rw [if_neg (by simp [hne])] at hcount
          omega
        have hc1 : keyCount file k = 1 := by
          rw [hcount, if_pos (Or.inl hs1)]
        have hstep : schedStep k e1 e2 ⟨file, s1, AddStage.toCheck⟩ false =
            ⟨file, s1, AddStage.doneAlready⟩ := by
          simp [schedStep, addStep, hk]
        rw [hstep]
        refine ⟨hnd, by simp [hs1, hc1], ?_, fun _ => hs1⟩
        intro hc
        rw [hs1] at hc
        exact AddStage.noConfusion hc
      · have hzero : keyCount file k = 0 := keyCount_eq_zero_of_not_isSome hk
        have hs1 : ¬s1 = AddStage.doneOk := by
          intro hne
          rw [if_pos (by simp [hne])] at hcount
          omega
        have hs1' : ¬s1 = AddStage.doneAlready := fun hc => AddStage.noConfusion (h12 hc)
        have hstep : schedStep k e1 e2 ⟨file, s1, AddStage.toCheck⟩ false =
            ⟨file, s1, AddStage.toCommit⟩ := by
          simp [schedStep, addStep, hk]
        rw [hstep]
        refine ⟨hnd, ?_, fun hc => absurd hc hs1', fun hc => AddStage.noConfusion hc⟩
        rw [if_neg (by simp [hs1])]
        exact hzero
    | toCommit =>
      have hle : keyCount file k ≤ 1 := nodup_keyCount_le_one hnd
      have hstep : schedStep k e1 e2 ⟨file, s1, AddStage.toCommit⟩ false =
          ⟨setAssoc file k e2, s1, AddStage.doneOk⟩ := by
        simp [schedStep, addStep]
      rw [hstep]
      refine ⟨nodup_setAssoc hnd, ?_, fun _ => rfl, fun hc => AddStage.noConfusion hc⟩
      rw [keyCount_setAssoc_one hle, if_pos (Or.inr rfl)]
    | doneOk =>
      have hstep : schedStep k e1 e2 ⟨file, s1, AddStage.doneOk⟩ false =
          ⟨file, s1, AddStage.doneOk⟩ := by
        simp [schedStep, addStep]
      rw [hstep]
      exact ⟨hnd, hcount, h12, h21⟩
    | doneAlready =>
      have hstep : schedStep k e1 e2 ⟨file, s1, AddStage.doneAlready⟩ false =
          ⟨file, s1, AddStage.doneAlready⟩ := by
        simp [schedStep, addStep]
      rw [hstep]
      exact ⟨hnd, hcount, h12, h21⟩

theorem addsInv_runSched {k : String} {e1 e2 : Entry} (sched : List Bool)
    {sys : TwoAdds} (h : addsInv k sys) : addsInv k (runSched k e1 e2 sched sys) := by
  induction sched generalizing sys with
  | nil => exact h
  | cons w rest ih => exact ih (addsInv_schedStep w h)

theorem AddStage.finished_iff (s : AddStage) :
    s.finished ↔ (s = .doneOk ∨ s = .doneAlready) := by
  cases s <;> simp [AddStage.finished]

instance (s : AddStage) : Decidable s.finished :=
  match s with
  | .toCheck => .isFalse (fun h => h)
  | .toCommit => .isFalse (fun h => h)
  | .doneOk => .isTrue trivial
  | .doneAlready => .isTrue trivial

/-- The END state is terminal: remaining inputs change nothing. -/
theorem run_session_END (secret : String) (userId : Nat) (username : Option String)
    (now : String) (inputs : List String) (d : SessData) (bl : Blacklist) :
    run_session secret userId username now inputs .END d bl = (.END, d, bl) := by
  induction inputs with
  | nil => rfl
  | cons i rest ih => simpa [run_session, conv_step] using ih

/-- C1 counterexample: the claim says a per-source failure is recorded as
that source's Failed signal and never aborts the rest of the aggregation.
In the code, one failing source (here: the balance fetch raising while the
transaction and contract sources are healthy) makes generate_aml_report
return the generic error report, which is not a per-source report and
carries no signal for any source. -/
theorem C1_counterexample :
    generate_aml_report [] true
        ⟨.raise, .ok ⟨some [(), ()]⟩, .ok ⟨some "1", some "0x6060"⟩⟩
        "0x1f9090aae28b8a3dceadf281b0f12828e676c326" = .errorReport ∧
    ∀ (e : Option Entry) (ch : Option ChainSection), ReportResult.report e ch ≠ .errorReport :=
  ⟨by decide, fun e ch h => ReportResult.noConfusion h⟩

/-- C1 amended: generate_aml_report always returns a value (no failure
outcome of its own), and when every provider branch succeeds the report
carries exactly one value per configured source; but an exception in any
single source (here the balance branch) aborts the whole blockchain-data
aggregation and degrades the report to the generic error text, dropping
the other sources' values. -/
theorem C1_amended (bl : Blacklist) (a : String) (respF respO : ProviderResponses)
    (b : Int) (t : Nat) (c : Bool)
    (hf : balanceStep respF.balance = .error ())
    (hb : balanceStep respO.balance = .ok b)
    (ht : txStep respO.tx = .ok t)
    (hc : contractStep respO.contract = .ok c) :
    generate_aml_report bl true respF a = .errorReport ∧
    generate_aml_report bl true respO a =
      .report (getAssoc bl (pyLower a)) (some ⟨b, t, c⟩) := by
  constructor
  · simp [generate_aml_report, chainSection, hf]
  · simp [generate_aml_report, chainSection, hb, ht, hc]

/-- C1 witness: C1_amended at concrete responses. -/
theorem C1_witness :
    generate_aml_report [] true ⟨.raise, .ok ⟨some []⟩, .ok ⟨some "0", none⟩⟩ "0xAbC" =
      .errorReport ∧
    generate_aml_report [] true
        ⟨.ok ⟨some "1", some "5"⟩, .ok ⟨some []⟩, .ok ⟨some "0", none⟩⟩ "0xAbC" =
      .report (getAssoc [] (pyLower "0xAbC")) (some ⟨5, 0, false⟩) :=
  C1_amended [] "0xAbC" ⟨.raise, .ok ⟨some []⟩, .ok ⟨some "0", none⟩⟩
    ⟨.ok ⟨some "1", some "5"⟩, .ok ⟨some []⟩, .ok ⟨some "0", none⟩⟩ 5 0 false
    (by decide) (by decide) (by decide) (by decide)

/-- C2 counterexample: the claim says every mutation persists through an
atomic write-to-temp-then-rename (or equivalent), so a crash mid-write can
never leave a half-written store. The actual save_blacklist trace rewrites
blacklist.json in place: crashing right after the truncating open leaves an
empty file that is neither the old nor the new serialization. -/
theorem C2_counterexample :
    ¬ CrashAtomic (save_blacklist_ops "NEWSERIALIZED") BLACKLIST_FILE
        "OLDSERIALIZED" "NEWSERIALIZED" := by
  intro h
  have hcrash := h [FileOp.openTrunc BLACKLIST_FILE]
    ⟨[FileOp.writeAll BLACKLIST_FILE "NEWSERIALIZED"], rfl⟩
  revert hcrash
  decide

/-- C2 amended: every mutation is followed by a full rewrite of the
persisted file, but in place: the completed trace leaves the new
serialization, the trace contains no rename at all, and the crash point
between the truncating open and the write leaves an empty (truncated)
store file. -/
theorem C2_amended (s old : String) :
    getAssoc (runOps [(BLACKLIST_FILE, old)] (save_blacklist_ops s)) BLACKLIST_FILE = some s ∧
    getAssoc (runOps [(BLACKLIST_FILE, old)] [FileOp.openTrunc BLACKLIST_FILE]) BLACKLIST_FILE =
      some "" ∧
    (save_blacklist_ops s).all
      (fun op => match op with | .rename _ _ => false | _ => true) = true := by
  refine ⟨?_, ?_, rfl⟩
  · simp [runOps, save_blacklist_ops, applyOp, getAssoc_setAssoc_self]
  · simp [runOps, applyOp, getAssoc_setAssoc_self]

/-- C3 counterexample: the claim says two concurrent adds for the same
canonical address are serialized by a lock so that exactly one returns Ok
and the other AlreadyPresent. With the code's unlocked check-then-commit
sequence, the interleaving check1-check2-commit1-commit2 makes both calls
finish with Ok. -/
theorem C3_counterexample :
    (runSched "0x1f9090aae28b8a3dceadf281b0f12828e676c326"
        ⟨some "phishing", some "Ручное добавление", some 1, none, some "t1"⟩
        ⟨some "scam", some "Ручное добавление", some 2, none, some "t2"⟩
        [true, false, true, false] ⟨[], .toCheck, .toCheck⟩).s1 = .doneOk ∧
    (runSched "0x1f9090aae28b8a3dceadf281b0f12828e676c326"
        ⟨some "phishing", some "Ручное добавление", some 1, none, some "t1"⟩
        ⟨some "scam", some "Ручное добавление", some 2, none, some "t2"⟩
        [true, false, true, false] ⟨[], .toCheck, .toCheck⟩).s2 = .doneOk := by decide

/-- C3 amended: there is no lock; each add is a separate membership check
plus blind insert-and-save on the freshly loaded store. Still, for every
complete interleaving of two adds of the same canonical address into a
duplicate-free store not containing it, the final store holds exactly one
entry for that address, at least one call finishes Ok, and never do both
calls observe AlreadyPresent — but both finishing Ok is possible, so the
claimed exactly-one-Ok serialization does not hold. -/
theorem C3_amended (k : String) (e1 e2 : Entry) (bl : Blacklist) (sched : List Bool)
    (hnd : (bl.map Prod.fst).Nodup) (h0 : keyCount bl k = 0)
    (h1 : ((runSched k e1 e2 sched ⟨bl, .toCheck, .toCheck⟩).s1).finished)
    (_h2 : ((runSched k e1 e2 sched ⟨bl, .toCheck, .toCheck⟩).s2).finished) :
    keyCount (runSched k e1 e2 sched ⟨bl, .toCheck, .toCheck⟩).file k = 1 ∧
    ((runSched k e1 e2 sched ⟨bl, .toCheck, .toCheck⟩).s1 = .doneOk ∨
      (runSched k e1 e2 sched ⟨bl, .toCheck, .toCheck⟩).s2 = .doneOk) ∧
    ¬((runSched k e1 e2 sched ⟨bl, .toCheck, .toCheck⟩).s1 = .doneAlready ∧
      (runSched k e1 e2 sched ⟨bl, .toCheck, .toCheck⟩).s2 = .doneAlready) := by
  have hinit : addsInv k ⟨bl, .toCheck, .toCheck⟩ := by
    refine ⟨hnd, ?_, fun hc => AddStage.noConfusion hc, fun hc => AddStage.noConfusion hc⟩
    rw [if_neg (by simp)]
    exact h0
  have hinv := @addsInv_runSched k e1 e2 sched ⟨bl, .toCheck, .toCheck⟩ hinit
  obtain ⟨hnd', hcount', h12', h21'⟩ := hinv
  rcases (AddStage.finished_iff _).mp h1 with hs1 | hs1
  · refine ⟨?_, Or.inl hs1, ?_⟩
    · rw [hcount', if_pos (Or.inl hs1)]
    · rintro ⟨ha1, _⟩
      rw [hs1] at ha1
      exact AddStage.noConfusion ha1
  · have hs2 : (runSched k e1 e2 sched ⟨bl, .toCheck, .toCheck⟩).s2 = .doneOk := h12' hs1
    refine ⟨?_, Or.inr hs2, ?_⟩
    · rw [hcount', if_pos (Or.inr hs2)]
    · rintro ⟨_, ha2⟩
      rw [hs2] at ha2
      exact AddStage.noConfusion ha2

/-- C3 witness: C3_amended at a serialized interleaving (caller 1 checks
and commits, then caller 2 checks and observes AlreadyPresent). -/
theorem C3_witness :
    keyCount (runSched "0xaa" ⟨some "r1", none, some 1, none, none⟩
        ⟨some "r2", none, some 2, none, none⟩ [true, true, false]
        ⟨[], .toCheck, .toCheck⟩).file "0xaa" = 1 ∧
    ((runSched "0xaa" ⟨some "r1", none, some 1, none, none⟩
        ⟨some "r2", none, some 2, none, none⟩ [true, true, false]
        ⟨[], .toCheck, .toCheck⟩).s1 = .doneOk ∨
      (runSched "0xaa" ⟨some "r1", none, some 1, none, none⟩
        ⟨some "r2", none, some 2, none, none⟩ [true, true, false]
        ⟨[], .toCheck, .toCheck⟩).s2 = .doneOk) ∧
    ¬((runSched "0xaa" ⟨some "r1", none, some 1, none, none⟩
        ⟨some "r2", none, some 2, none, none⟩ [true, true, false]
        ⟨[], .toCheck, .toCheck⟩).s1 = .doneAlready ∧
      (runSched "0xaa" ⟨some "r1", none, some 1, none, none⟩
        ⟨some "r2", none, some 2, none, none⟩ [true, true, false]
        ⟨[], .toCheck, .toCheck⟩).s2 = .doneAlready) :=
  C3_amended "0xaa" ⟨some "r1", none, some 1, none, none⟩
    ⟨some "r2", none, some 2, none, none⟩ [] [true, true, false]
    (by decide) (by decide) (by decide) (by decide)

/-- C4: if the canonical (lower-cased, stripped) form of a well-formed
input address already has an entry, check_address ends the add flow
reporting the stored entry's reason and without touching the store
(AlreadyPresent, no overwrite); and every completed save_to_blacklist
keeps the store's keys duplicate-free, so at most one entry exists per
canonical address after every completed add. -/
theorem C4_theorem (bl : Blacklist) (input rinput addr2 : String) (ex : Entry)
    (userId : Nat) (username : Option String) (now : String)
    (hnd : (bl.map Prod.fst).Nodup)
    (hfmt : addr_format_ok (pyStrip input) = true)
    (hmem : getAssoc bl (pyLower (pyStrip input)) = some ex) :
    check_address bl input = (.END, none, some (ex.reason.getD "причина не указана")) ∧
    ((save_to_blacklist bl rinput addr2 userId username now).2.map Prod.fst).Nodup := by
  constructor
  · simp [check_address, hfmt, hmem]
  · simpa [save_to_blacklist] using nodup_setAssoc hnd

/-- C4 witness: C4_theorem at a store already containing the canonical form
of the (differently capitalized) input address. -/
theorem C4_witness :
    check_address
        [("0x1f9090aae28b8a3dceadf281b0f12828e676c326",
          ⟨some "phishing", some "Ручное добавление", some 7, none, some "1.0"⟩)]
        "0x1f9090aaE28b8a3dCeaDf281B0F12828e676c326" =
      (.END, none, some "phishing") ∧
    ((save_to_blacklist
        [("0x1f9090aae28b8a3dceadf281b0f12828e676c326",
          ⟨some "phishing", some "Ручное добавление", some 7, none, some "1.0"⟩)]
        "scam" "0xaa" 9 none "2.0").2.map Prod.fst).Nodup :=
  C4_theorem
    [("0x1f9090aae28b8a3dceadf281b0f12828e676c326",
      ⟨some "phishing", some "Ручное добавление", some 7, none, some "1.0"⟩)]
    "0x1f9090aaE28b8a3dCeaDf281B0F12828e676c326" "scam" "0xaa"
    ⟨some "phishing", some "Ручное добавление", some 7, none, some "1.0"⟩
    9 none "2.0" (by decide) (by decide) (by decide)

/-- C5 counterexample: the claim says validation accepts exactly the strings
with prefix 0x, length 42 and hex digits after the prefix. The code's test
accepts a 42-character string of z's after 0x, which the spec's validator
rejects, so the claimed equivalence fails. -/
theorem C5_counterexample :
    addr_format_ok "0xzzzzzzzzzzzzzzzzzzzzzzzzzzzzzzzzzzzzzzzz" = true ∧
    validate_spec "0xzzzzzzzzzzzzzzzzzzzzzzzzzzzzzzzzzzzzzzzz" = false := by decide

/-- C5 amended: the validation used at both code sites accepts a string iff
it starts with the two characters 0x and has total length 42; the hex-digit
check stated by the spec is never performed. -/
theorem C5_amended (s : String) :
    addr_format_ok s = true ↔ (s.data.take 2 = ['0', 'x'] ∧ s.data.length = 42) := by
  unfold addr_format_ok pyStartswith pyLen
  have h0x : "0x".data = ['0', 'x'] := rfl
  rw [h0x, Bool.and_eq_true, beq_iff_eq]
  rcases hl : s.data with _ | ⟨c1, _ | ⟨c2, rest⟩⟩
  · simp [List.isPrefixOf]
  · simp [List.isPrefixOf]
  · simp [List.isPrefixOf]
    intro _
    constructor
    · rintro ⟨hc1, hc2⟩
      exact ⟨hc1.symm, hc2.symm⟩
    · rintro ⟨hc1, hc2⟩
      exact ⟨hc1.symm, hc2.symm⟩

/-- C6 counterexample: the claim says a provider response with status "0"
must yield a Failed signal, not an Ok value 0. The code's balance branch
returns the value 0 for status "0", the very same Ok outcome it returns for
a genuine zero balance with status "1". -/
theorem C6_counterexample :
    balanceStep (.ok ⟨some "0", none⟩) = .ok 0 ∧
    balanceStep (.ok ⟨some "1", some "0"⟩) = .ok 0 ∧
    (Except.ok 0 : Except Unit Int) ≠ .error () := by decide

/-- C6 amended: any parsed balance response whose status is not "1" yields
the value 0 treated as a normal balance — indistinguishable from a genuine
zero balance — and the whole report still carries the other healthy
sources' values alongside that 0. -/
theorem C6_amended (bl : Blacklist) (a : String) (jb : BalanceJson)
    (rt : Fetched TxJson) (rc : Fetched ContractJson) (t : Nat) (c : Bool)
    (h : jb.status ≠ some "1")
    (ht : txStep rt = .ok t)
    (hc : contractStep rc = .ok c) :
    balanceStep (.ok jb) = .ok 0 ∧
    generate_aml_report bl true ⟨.ok jb, rt, rc⟩ a =
      .report (getAssoc bl (pyLower a)) (some ⟨0, t, c⟩) := by
  have hb : balanceStep (.ok jb) = .ok 0 := by simp [balanceStep, h]
  refine ⟨hb, ?_⟩
  simp [generate_aml_report, chainSection, hb, ht, hc]

/-- C6 witness: C6_amended at the rate-limited mock response with healthy
transaction and contract sources. -/
theorem C6_witness :
    balanceStep (.ok ⟨some "0", none⟩) = .ok 0 ∧
    generate_aml_report [] true ⟨.ok ⟨some "0", none⟩, .ok ⟨some [(), ()]⟩, .ok ⟨some "0", none⟩⟩
        "0xAbC" = .report (getAssoc [] (pyLower "0xAbC")) (some ⟨0, 2, false⟩) :=
  C6_amended [] "0xAbC" ⟨some "0", none⟩ (.ok ⟨some [(), ()]⟩) (.ok ⟨some "0", none⟩) 2 false
    (by decide) (by decide) (by decide)

/-- C7 counterexample: the claim says the operator's input is compared to
the secret with exact string match and any mismatch ends the session. The
raw input carrying a trailing space differs from the secret, yet
check_phrase strips it first and proceeds to the action choice. -/
theorem C7_counterexample :
    ("мойсекрет123 " ≠ "мойсекрет123") ∧
    check_phrase "мойсекрет123" "мойсекрет123 " = (.CHOOSE_ACTION, some "мойсекрет123") := by
  decide

/-- C7 amended: the operator's input is stripped of surrounding whitespace
and then compared to the secret by exact equality; any mismatch of the
stripped input moves the whole session directly to the terminal END state
with no retry, and the blocklist store is never modified by such a session
(no entry is ever created). -/
theorem C7_amended (secret : String) (userId : Nat) (username : Option String)
    (now first : String) (rest : List String) (d : SessData) (bl : Blacklist)
    (h : pyStrip first ≠ secret) :
    (run_session secret userId username now (first :: rest) .ENTER_PHRASE d bl).1 = .END ∧
    (run_session secret userId username now (first :: rest) .ENTER_PHRASE d bl).2.2 = bl := by
  have hcp : check_phrase secret first = (.END, none) := by simp [check_phrase, h]
  have hstep : conv_step secret userId username now .ENTER_PHRASE d bl first = (.END, d, bl) := by
    simp [conv_step, hcp]
  simp [run_session, hstep, run_session_END]

/-- C7 witness: C7_amended on a session that receives a wrong secret and
then further inputs. -/
theorem C7_witness :
    (run_session "мойсекрет123" 7 none "1.0" ["пароль", "0xaa", "x"] .ENTER_PHRASE
        ⟨none, none⟩ []).1 = .END ∧
    (run_session "мойсекрет123" 7 none "1.0" ["пароль", "0xaa", "x"] .ENTER_PHRASE
        ⟨none, none⟩ []).2.2 = [] :=
  C7_amended "мойсекрет123" 7 none "1.0" "пароль" ["0xaa", "x"] ⟨none, none⟩ [] (by decide)

/-- C8: after a completed add (well-formed address absent from the store,
then a reason), removing the same raw address pops and returns exactly the
entry the add stored — same reason, and the source value the add wrote —
and a second remove of the same address reports NotFound. -/
theorem C8_theorem (bl : Blacklist) (addrInput reasonInput : String)
    (userId : Nat) (username : Option String) (now : String)
    (hfmt : addr_format_ok (pyStrip addrInput) = true)
    (habsent : getAssoc bl (pyLower (pyStrip addrInput)) = none) :
    check_address bl addrInput = (.ENTER_REASON, some (pyLower (pyStrip addrInput)), none) ∧
    remove_from_blacklist
        (save_to_blacklist bl reasonInput (pyLower (pyStrip addrInput)) userId username now).2
        addrInput =
      (.END,
       delAssoc
         (save_to_blacklist bl reasonInput (pyLower (pyStrip addrInput)) userId username now).2
         (pyLower (pyStrip addrInput)),
       some ⟨some (pyStrip reasonInput), some "Ручное добавление", some userId, username,
         some now⟩) ∧
    remove_from_blacklist
        (delAssoc
          (save_to_blacklist bl reasonInput (pyLower (pyStrip addrInput)) userId username now).2
          (pyLower (pyStrip addrInput)))
        addrInput =
      (.END,
       delAssoc
         (save_to_blacklist bl reasonInput (pyLower (pyStrip addrInput)) userId username now).2
         (pyLower (pyStrip addrInput)),
       none) := by
  refine ⟨?_, ?_, ?_⟩
  · simp [check_address, hfmt, habsent]
  · simp [remove_from_blacklist, save_to_blacklist, getAssoc_setAssoc_self]
  · simp [remove_from_blacklist, save_to_blacklist, getAssoc_delAssoc_self]

/-- C8 witness: C8_theorem on an empty store with a concrete address and
reason. -/
theorem C8_witness :
    check_address [] "0x1f9090aaE28b8a3dCeaDf281B0F12828e676c326" =
      (.ENTER_REASON, some (pyLower (pyStrip "0x1f9090aaE28b8a3dCeaDf281B0F12828e676c326")),
       none) ∧
    remove_from_blacklist
        (save_to_blacklist [] "phishing"
          (pyLower (pyStrip "0x1f9090aaE28b8a3dCeaDf281B0F12828e676c326")) 7 none "1.0").2
        "0x1f9090aaE28b8a3dCeaDf281B0F12828e676c326" =
      (.END,
       delAssoc
         (save_to_blacklist [] "phishing"
           (pyLower (pyStrip "0x1f9090aaE28b8a3dCeaDf281B0F12828e676c326")) 7 none "1.0").2
         (pyLower (pyStrip "0x1f9090aaE28b8a3dCeaDf281B0F12828e676c326")),
       some ⟨some (pyStrip "phishing"), some "Ручное добавление", some 7, none, some "1.0"⟩) ∧
    remove_from_blacklist
        (delAssoc
          (save_to_blacklist [] "phishing"
            (pyLower (pyStrip "0x1f9090aaE28b8a3dCeaDf281B0F12828e676c326")) 7 none "1.0").2
          (pyLower (pyStrip "0x1f9090aaE28b8a3dCeaDf281B0F12828e676c326")))
        "0x1f9090aaE28b8a3dCeaDf281B0F12828e676c326" =
      (.END,
       delAssoc
         (save_to_blacklist [] "phishing"
           (pyLower (pyStrip "0x1f9090aaE28b8a3dCeaDf281B0F12828e676c326")) 7 none "1.0").2
         (pyLower (pyStrip "0x1f9090aaE28b8a3dCeaDf281B0F12828e676c326")),
       none) :=
  C8_theorem [] "0x1f9090aaE28b8a3dCeaDf281B0F12828e676c326" "phishing" 7 none "1.0"
    (by decide) (by decide)

/-- C9 counterexample: the claim says an empty/placeholder source value
normalizes to the literal default string "manual". The stored entry's
source is the constant "Ручное добавление", not "manual", and the add flow
never asks for a source at all. -/
theorem C9_counterexample :
    getAssoc (save_to_blacklist [] "phishing" "0x1f9090aae28b8a3dceadf281b0f12828e676c326"
        7 none "123.0").2 "0x1f9090aae28b8a3dceadf281b0f12828e676c326" =
      some ⟨some "phishing", some "Ручное добавление", some 7, none, some "123.0"⟩ ∧
    (some "Ручное добавление" : Option String) ≠ some "manual" := by decide

/-- C9 amended: the add flow has no source prompt; the stored entry's
source field is always the literal constant "Ручное добавление" (manual
addition), for every store, reason input and operator. -/
theorem C9_amended (bl : Blacklist) (input address : String) (userId : Nat)
    (username : Option String) (now : String) :
    getAssoc (save_to_blacklist bl input address userId username now).2 address =
      some ⟨some (pyStrip input), some "Ручное добавление", some userId, username, some now⟩ := by
  simp [save_to_blacklist, getAssoc_setAssoc_self]

/-- C10: when loading the persisted blocklist fails (unreadable file or
malformed JSON), load_blacklist returns the empty map instead of
propagating the error; every lookup on that empty map is negative, and the
generated report shows the clean blocklist status — both without the
Etherscan section and for any successfully fetched section. -/
theorem C10_theorem (r : ReadOutcome) (a : String) (resp : ProviderResponses)
    (h : r = .ioError ∨ r = .malformed) :
    load_blacklist r = [] ∧
    getAssoc (load_blacklist r) (pyLower a) = none ∧
    generate_aml_report (load_blacklist r) false resp a = .report none none ∧
    (∀ s : ChainSection, chainSection resp = .ok s →
      generate_aml_report (load_blacklist r) true resp a = .report none (some s)) := by
  have hload : load_blacklist r = [] := by
    rcases h with h | h <;> rw [h] <;> rfl
  refine ⟨hload, ?_, ?_, ?_⟩
  · rw [hload]; rfl
  · rw [hload]; rfl
  · intro s hs
    rw [hload]
    simp [generate_aml_report, hs, getAssoc]

/-- C10 witness: C10_theorem at a malformed store file. -/
theorem C10_witness :
    load_blacklist .malformed = [] ∧
    getAssoc (load_blacklist .malformed) (pyLower "0xAbC") = none ∧
    generate_aml_report (load_blacklist .malformed) false ⟨.raise, .raise, .raise⟩ "0xAbC" =
      .report none none ∧
    (∀ s : ChainSection, chainSection ⟨.raise, .raise, .raise⟩ = .ok s →
      generate_aml_report (load_blacklist .malformed) true ⟨.raise, .raise, .raise⟩ "0xAbC" =
        .report none (some s)) :=
  C10_theorem .malformed "0xAbC" ⟨.raise, .raise, .raise⟩ (Or.inr rfl)

end AmlBot
